import Mathlib

/-!
Shallow embedding of the persistence schema in `app/models.py` of the
AI-Education project: the SQLAlchemy column declarations of the seven model
classes (User, Course, Enrollment, Exam, Question, Answer, AIEvaluation),
the `generate_uuid4_last12` identifier generator, the declared relationships
with their back-references, and the storage-level insert semantics that the
declared constraints (not-null, unique, enumerated values, column defaults)
induce.
-/

namespace AIEdu

/-! ## Identifier generation (`generate_uuid4_last12`, models.py lines 7-8)

Python's `uuid.uuid4()` draws a random 128-bit value; `str` of a UUID renders
it as `'%032x'` (32 lower-case hexadecimal digits, zero-padded) with hyphens
inserted after digits 8, 12, 16 and 20 (the canonical 8-4-4-4-12 layout).
The generator keeps the last 12 characters of that text (`[-12:]`).
We embed the 128-bit value as a `Nat` below `2 ^ 128`. -/

/-- The sixteen lower-case hexadecimal digit characters. -/
def hexChars : List Char := "0123456789abcdef".data

/-- The hexadecimal digit character for a value below 16. -/
def hexDigit (n : Nat) : Char := hexChars.getD n '0'

/-- The `w` low hexadecimal digits of `n`, zero-padded to width `w`
(for `n < 16 ^ w` this is exactly Python's `'%0wx' % n`). -/
def toHexPad : Nat → Nat → List Char
  | _, 0 => []
  | n, w + 1 => toHexPad (n / 16) w ++ [hexDigit (n % 16)]

/-- The canonical text of a 128-bit UUID value: 32 hex digits in the
8-4-4-4-12 hyphenated layout, as Python's `str` on a `uuid.UUID` renders it. -/
def uuidStr (u : Nat) : List Char :=
  (toHexPad u 32).take 8 ++ ['-'] ++ ((toHexPad u 32).drop 8).take 4 ++ ['-']
    ++ ((toHexPad u 32).drop 12).take 4 ++ ['-'] ++ ((toHexPad u 32).drop 16).take 4
    ++ ['-'] ++ (toHexPad u 32).drop 20

/-- `generate_uuid4_last12` (models.py line 8): `str(uuid.uuid4())[-12:]`,
the last 12 characters of the canonical UUID text of the drawn value. -/
def generate_uuid4_last12 (u : Nat) : String :=
  String.mk ((uuidStr u).drop ((uuidStr u).length - 12))

/-! ## The schema as data

Column and relationship declarations, transcribed line by line from
models.py. A column records its SQLAlchemy storage type, the
`primary_key=` / `unique=` / `nullable=` flags, the `db.ForeignKey` target
and the `default=` callable. SQLAlchemy's `db.Column` leaves `nullable`
True unless the column is a primary key or says `nullable=False`. -/

/-- A stored cell value: string, integer, or timestamp. -/
inductive Value where
  | str : String → Value
  | int : Int → Value
  | time : Nat → Value
deriving DecidableEq

/-- The ambient context a column default may draw on: `datetime.now()` and
the random 128-bit value the next `uuid.uuid4()` call returns. -/
structure Ctx where
  now : Nat
  uuid : Nat

/-- A column's storage type: `db.String(n)`, `db.Integer`, `db.Text`,
`db.DateTime` or `db.Enum(...)`. -/
inductive ColType where
  | str : Nat → ColType
  | int : ColType
  | text : ColType
  | datetime : ColType
  | enum : List String → ColType

/-- One `db.Column(...)` declaration. `dflt` is the `default=` argument. -/
structure ColumnSpec where
  name : String
  ctype : ColType
  primaryKey : Bool
  unique : Bool
  nullable : Bool
  foreignKey : Option String
  dflt : Option (Ctx → Value)

/-- Positional builder for a `db.Column` declaration. -/
def column (name : String) (ctype : ColType) (pk uniq nul : Bool)
    (fk : Option String) (d : Option (Ctx → Value)) : ColumnSpec :=
  ⟨name, ctype, pk, uniq, nul, fk, d⟩

/-- One model class: its table name and its columns in declaration order. -/
structure TableSpec where
  name : String
  columns : List ColumnSpec

/-- An integer primary-key column `db.Column(db.Integer, primary_key=True)`,
shared verbatim by Course, Enrollment, Exam, Question, Answer and
AIEvaluation. -/
def idCol : ColumnSpec := column "id" .int true false false none none

/-- `User.id` (models.py line 26): a 12-character string primary key,
unique, not null, defaulting to `generate_uuid4_last12`. -/
def userIdCol : ColumnSpec :=
  column "id" (.str 12) true true false none
    (some (fun ctx => Value.str (generate_uuid4_last12 ctx.uuid)))

/-- `User.user_name` (models.py line 27): unique and not null. -/
def userNameCol : ColumnSpec := column "user_name" (.str 80) false true false none none

/-- `User.email` (models.py line 30): unique and not null. -/
def emailCol : ColumnSpec := column "email" (.str 120) false true false none none

/-- The `user` table (models.py lines 26-35). -/
def userTable : TableSpec :=
  ⟨"user",
    [userIdCol,
      userNameCol,
      column "first_name" (.str 80) false false false none none,
      column "last_name" (.str 80) false false true none none,
      emailCol,
      column "password_hash" (.str 120) false false false none none,
      column "role" (.str 10) false false true none none,
      column "last_login" .datetime false false true none none,
      column "created_at" .datetime false false false none
        (some (fun ctx => Value.time ctx.now)),
      column "updated_at" .datetime false false true none none]⟩

/-- The `course` table (models.py lines 50-52). -/
def courseTable : TableSpec :=
  ⟨"course",
    [idCol,
      column "course_name" (.str 120) false false false none none,
      column "teacher_id" (.str 12) false false true (some "user.id") none]⟩

/-- The `enrollment` table (models.py lines 69-73). Note line 71:
`course_id = db.Column(db.Integer, db.ForeignKey('user.id'))`. -/
def enrollmentTable : TableSpec :=
  ⟨"enrollment",
    [idCol,
      column "student_id" (.str 12) false false true (some "user.id") none,
      column "course_id" .int false false true (some "user.id") none,
      column "status" (.enum ["enrolled", "cancelled", "pending"]) false false false none
        (some (fun _ => Value.str "pending")),
      column "enrollment_date" .datetime false false true none
        (some (fun ctx => Value.time ctx.now))]⟩

/-- The `exam` table (models.py lines 88-91). -/
def examTable : TableSpec :=
  ⟨"exam",
    [idCol,
      column "course_id" .int false false true (some "course.id") none,
      column "exam_title" (.str 120) false false false none none,
      column "exam_description" (.str 255) false false true none none]⟩

/-- The `question` table (models.py lines 104-106). -/
def questionTable : TableSpec :=
  ⟨"question",
    [idCol,
      column "exam_id" .int false false true (some "exam.id") none,
      column "question_text" .text false false false none none]⟩

/-- The `answer` table (models.py lines 121-124). -/
def answerTable : TableSpec :=
  ⟨"answer",
    [idCol,
      column "question_id" .int false false true (some "question.id") none,
      column "student_id" (.str 12) false false true (some "user.id") none,
      column "answer_text" .text false false false none none]⟩

/-- The `ai_evaluation` table (models.py lines 139-142). -/
def aiEvaluationTable : TableSpec :=
  ⟨"ai_evaluation",
    [idCol,
      column "answer_id" .int false false true (some "answer.id") none,
      column "score" .int false false true none none,
      column "feedback" .text false false true none none]⟩

/-- A `db.relationship(target, backref=...)` declaration: the owning model
class, the attribute holding the forward navigation, the target class, and
the reverse-collection name the back-reference registers on the target. -/
structure RelSpec where
  owner : String
  attrName : String
  target : String
  backref : String
deriving DecidableEq

/-- `Course.teacher = db.relationship('User', backref='courses')` (line 54). -/
def teacherRel : RelSpec := ⟨"Course", "teacher", "User", "courses"⟩

/-- `Enrollment.student = db.relationship('User', backref='courses')` (line 75). -/
def enrollmentStudentRel : RelSpec := ⟨"Enrollment", "student", "User", "courses"⟩

/-- `Enrollment.course = db.relationship('Course', backref='courses')` (line 76). -/
def enrollmentCourseRel : RelSpec := ⟨"Enrollment", "course", "Course", "courses"⟩

/-- Every `db.relationship` declaration of models.py, in source order. -/
def relationships : List RelSpec :=
  [teacherRel,
    enrollmentStudentRel,
    enrollmentCourseRel,
    ⟨"Exam", "course", "Course", "exams"⟩,
    ⟨"Question", "exam", "Exam", "questions"⟩,
    ⟨"Answer", "question", "Question", "answers"⟩,
    ⟨"Answer", "student", "User", "answers"⟩,
    ⟨"AIEvaluation", "answer", "Answer", "evaluations"⟩]

/-- The declared foreign-key target of a table's column. -/
def fkTarget (t : TableSpec) (c : String) : Option String :=
  (t.columns.find? (fun cl => cl.name == c)).bind (fun cl => cl.foreignKey)

/-! ## Storage-level insert semantics

What creating a record through the ORM does at the storage layer, given the
declared constraints: each column takes the supplied value, else its
declared default, else (for an integer primary key) the auto-increment
value, else NULL; then the declared not-null, enumerated-value and
uniqueness constraints are checked in column order, the first violation
failing the insert. Foreign-key existence is not checked (the storage
engine's enforcement mode is an external concern, spec section 7). -/

/-- A stored record: one optional value per column, in column order. -/
abbrev Row := List (String × Option Value)

/-- The value a stored record holds in a column (`none` for NULL or for a
column the record does not have). -/
def rowVal (r : Row) (n : String) : Option Value := (List.lookup n r).bind id

/-- A constraint violation surfaced by the storage layer on insert. -/
inductive DBError where
  | notNull : String → DBError
  | uniqueViolation : String → DBError
  | enumViolation : String → DBError
deriving DecidableEq

def isIntCol : ColType → Bool
  | .int => true
  | _ => false

/-- The value a column receives on insert: the supplied value, else the
declared default, else the auto-increment value for an integer primary
key, else NULL. -/
def colValue (c : ColumnSpec) (ctx : Ctx) (db : List Row)
    (inp : List (String × Value)) : Option Value :=
  match List.lookup c.name inp with
  | some v => some v
  | none =>
    match c.dflt with
    | some f => some (f ctx)
    | none =>
      if c.primaryKey && isIntCol c.ctype then some (Value.int (Int.ofNat (db.length + 1)))
      else none

/-- Whether a non-NULL value violates a `db.Enum(...)` column's value set. -/
def enumBad (c : ColumnSpec) (v : Option Value) : Bool :=
  match c.ctype, v with
  | .enum vs, some (Value.str s) => !(vs.contains s)
  | .enum _, some _ => true
  | _, _ => false

/-- The first constraint a column's incoming value violates against the
stored table, if any: not-null, then enumerated values, then uniqueness. -/
def checkCol (c : ColumnSpec) (v : Option Value) (db : List Row) : Option DBError :=
  if v.isNone && !c.nullable then some (.notNull c.name)
  else if enumBad c v then some (.enumViolation c.name)
  else if (c.primaryKey || c.unique) && v.isSome
      && db.any (fun r => decide (rowVal r c.name = v)) then some (.uniqueViolation c.name)
  else none

/-- The first constraint violation over a list of columns, in order. -/
def firstErrCols (cs : List ColumnSpec) (ctx : Ctx) (db : List Row)
    (inp : List (String × Value)) : Option DBError :=
  match cs with
  | [] => none
  | c :: rest =>
    match checkCol c (colValue c ctx db inp) db with
    | some e => some e
    | none => firstErrCols rest ctx db inp

/-- The record an insert stores: every column resolved through `colValue`. -/
def mkRow (t : TableSpec) (ctx : Ctx) (db : List Row)
    (inp : List (String × Value)) : Row :=
  t.columns.map (fun c => (c.name, colValue c ctx db inp))

/-- Inserting a record into a table: the first constraint violation fails
the insert, otherwise the resolved record is appended to the store. -/
def insert (t : TableSpec) (ctx : Ctx) (db : List Row)
    (inp : List (String × Value)) : Except DBError (List Row) :=
  match firstErrCols t.columns ctx db inp with
  | some e => .error e
  | none => .ok (db ++ [mkRow t ctx db inp])

/-- Whether an insert outcome is a not-null violation on the named column. -/
def notNullErrOn : Except DBError (List Row) → String → Bool
  | .error (.notNull m), n => m == n
  | _, _ => false

/-- The User stores reachable from the empty store by successful inserts. -/
inductive ReachableUser : List Row → Prop where
  | empty : ReachableUser []
  | step (db db' : List Row) (ctx : Ctx) (inp : List (String × Value)) :
      ReachableUser db → insert userTable ctx db inp = .ok db' → ReachableUser db'

/-- Pairwise distinctness of `user_name` and of `email` across the records
of a User store. -/
def usersDistinct (db : List Row) : Prop :=
  db.Pairwise (fun a b =>
    rowVal a "user_name" ≠ rowVal b "user_name" ∧ rowVal a "email" ≠ rowVal b "email")

/-- The input of spec section 8's User-creation example: `user_name`,
`first_name`, `email` and `password_hash` supplied, all else unset. -/
def mkUserInp (un fn em ph : String) : List (String × Value) :=
  [("user_name", Value.str un), ("first_name", Value.str fn),
    ("email", Value.str em), ("password_hash", Value.str ph)]

/-! ## Lemmas about the embedding -/

theorem toHexPad_length (w : Nat) : ∀ n, (toHexPad n w).length = w := by
  induction w with
  | zero => intro n; rfl
  | succ w ih =>
    intro n
    simp [toHexPad, ih (n / 16)]

theorem hexDigit_mem (n : Nat) : hexDigit n ∈ hexChars := by
  have h16 : ∀ m, m < 16 → hexDigit m ∈ hexChars := by decide
  rcases lt_or_ge n 16 with h | h
  · exact h16 n h
  · have hd : hexDigit n = '0' := by
      unfold hexDigit
      refine List.getD_eq_default _ _ ?_
      show hexChars.length ≤ n
      simp only [hexChars, List.length_cons, List.length_nil]
      omega
    rw [hd]
    decide

theorem toHexPad_mem_hexChars {c : Char} :
    ∀ w n, c ∈ toHexPad n w → c ∈ hexChars := by
  intro w
  induction w with
  | zero => intro n h; simp [toHexPad] at h
  | succ w ih =>
    intro n h
    simp only [toHexPad, List.mem_append, List.mem_singleton] at h
    rcases h with h | h
    · exact ih _ h
    · subst h; exact hexDigit_mem _

theorem uuidStr_length (u : Nat) : (uuidStr u).length = 36 := by
  simp only [uuidStr, List.length_append, List.length_take, List.length_drop,
    List.length_cons, List.length_nil, toHexPad_length]
  omega

theorem generate_uuid4_last12_data (u : Nat) :
    (generate_uuid4_last12 u).data = (toHexPad u 32).drop 20 := by
  have hsplit : uuidStr u =
      ((toHexPad u 32).take 8 ++ ['-'] ++ ((toHexPad u 32).drop 8).take 4 ++ ['-']
        ++ ((toHexPad u 32).drop 12).take 4 ++ ['-'] ++ ((toHexPad u 32).drop 16).take 4
        ++ ['-']) ++ (toHexPad u 32).drop 20 := by
    simp only [uuidStr, List.append_assoc]
  have hpre : ((toHexPad u 32).take 8 ++ ['-'] ++ ((toHexPad u 32).drop 8).take 4 ++ ['-']
      ++ ((toHexPad u 32).drop 12).take 4 ++ ['-'] ++ ((toHexPad u 32).drop 16).take 4
      ++ ['-']).length = 24 := by
    simp only [List.length_append, List.length_take, List.length_drop,
      List.length_cons, List.length_nil, toHexPad_length]
    omega
  unfold generate_uuid4_last12
  rw [show ∀ l : List Char, (String.mk l).data = l from fun _ => rfl]
  rw [uuidStr_length, hsplit]
  rw [show (36 : Nat) - 12 = 24 from rfl, ← hpre]
  exact List.drop_left _ _

theorem generate_uuid4_last12_mem_hexChars {u : Nat} {c : Char}
    (h : c ∈ (generate_uuid4_last12 u).data) : c ∈ hexChars := by
  rw [generate_uuid4_last12_data] at h
  exact toHexPad_mem_hexChars 32 u (List.drop_subset _ _ h)

theorem firstErrCols_cons_none {c : ColumnSpec} {cs : List ColumnSpec}
    {ctx : Ctx} {db : List Row} {inp : List (String × Value)}
    (h : checkCol c (colValue c ctx db inp) db = none) :
    firstErrCols (c :: cs) ctx db inp = firstErrCols cs ctx db inp := by
  rw [firstErrCols, h]

theorem firstErrCols_cons_some {c : ColumnSpec} {cs : List ColumnSpec}
    {ctx : Ctx} {db : List Row} {inp : List (String × Value)} {e : DBError}
    (h : checkCol c (colValue c ctx db inp) db = some e) :
    firstErrCols (c :: cs) ctx db inp = some e := by
  rw [firstErrCols, h]

theorem insert_ok_of_firstErr_none {t : TableSpec} {ctx : Ctx} {db : List Row}
    {inp : List (String × Value)}
    (h : firstErrCols t.columns ctx db inp = none) :
    insert t ctx db inp = .ok (db ++ [mkRow t ctx db inp]) := by
  rw [insert, h]

theorem insert_err_of_firstErr {t : TableSpec} {ctx : Ctx} {db : List Row}
    {inp : List (String × Value)} {e : DBError}
    (h : firstErrCols t.columns ctx db inp = some e) :
    insert t ctx db inp = .error e := by
  rw [insert, h]

/-- A non-NULL value that is enum-acceptable and appears in no stored
record passes every check of its column. -/
theorem checkCol_some_fresh (c : ColumnSpec) (v : Value) (db : List Row)
    (henum : enumBad c (some v) = false)
    (h : ∀ r ∈ db, rowVal r c.name ≠ some v) :
    checkCol c (some v) db = none := by
  have hany : db.any (fun r => decide (rowVal r c.name = some v)) = false := by
    rw [List.any_eq_false]
    intro r hr
    simp [h r hr]
  simp [checkCol, henum, hany]

/-- A non-NULL value on a unique column that some stored record already
holds fails with a uniqueness violation (provided it passes the enum
check first). -/
theorem checkCol_unique_dup (c : ColumnSpec) (v : Value) (db : List Row)
    (hu : c.unique = true)
    (henum : enumBad c (some v) = false)
    (h : ∃ r ∈ db, rowVal r c.name = some v) :
    checkCol c (some v) db = some (.uniqueViolation c.name) := by
  obtain ⟨r, hr, hv⟩ := h
  have hany : db.any (fun r => decide (rowVal r c.name = some v)) = true := by
    rw [List.any_eq_true]
    exact ⟨r, hr, by simp [hv]⟩
  simp [checkCol, henum, hany, hu]

/-- The auto-increment id passes its column checks when no stored record
already holds it. -/
theorem checkCol_idCol_fresh (db : List Row) (n : Int)
    (h : ∀ r ∈ db, rowVal r "id" ≠ some (Value.int n)) :
    checkCol idCol (some (Value.int n)) db = none :=
  checkCol_some_fresh _ _ _ rfl h

theorem enrollmentTable_columns :
    enrollmentTable.columns = idCol ::
      [column "student_id" (.str 12) false false true (some "user.id") none,
        column "course_id" .int false false true (some "user.id") none,
        column "status" (.enum ["enrolled", "cancelled", "pending"]) false false false none
          (some (fun _ => Value.str "pending")),
        column "enrollment_date" .datetime false false true none
          (some (fun ctx => Value.time ctx.now))] := rfl

theorem aiEvaluationTable_columns :
    aiEvaluationTable.columns = idCol ::
      [column "answer_id" .int false false true (some "answer.id") none,
        column "score" .int false false true none none,
        column "feedback" .text false false true none none] := rfl

theorem userTable_columns :
    userTable.columns = userIdCol :: userNameCol ::
      [column "first_name" (.str 80) false false false none none,
        column "last_name" (.str 80) false false true none none,
        emailCol,
        column "password_hash" (.str 120) false false false none none,
        column "role" (.str 10) false false true none none,
        column "last_login" .datetime false false true none none,
        column "created_at" .datetime false false false none
          (some (fun ctx => Value.time ctx.now)),
        column "updated_at" .datetime false false true none none] := rfl

theorem firstErrCols_some_mem {cs : List ColumnSpec} {ctx : Ctx} {db : List Row}
    {inp : List (String × Value)} {e : DBError}
    (h : firstErrCols cs ctx db inp = some e) :
    ∃ c ∈ cs, checkCol c (colValue c ctx db inp) db = some e := by
  induction cs with
  | nil => exact absurd h (by simp [firstErrCols])
  | cons c rest ih =>
    rw [firstErrCols] at h
    rcases hc : checkCol c (colValue c ctx db inp) db with _ | e'
    · rw [hc] at h
      obtain ⟨c', hm, he⟩ := ih h
      exact ⟨c', List.mem_cons_of_mem _ hm, he⟩
    · rw [hc] at h
      exact ⟨c, List.mem_cons_self _ _, hc.trans h⟩

theorem firstErrCols_none_mem {cs : List ColumnSpec} {ctx : Ctx} {db : List Row}
    {inp : List (String × Value)}
    (h : firstErrCols cs ctx db inp = none) :
    ∀ c ∈ cs, checkCol c (colValue c ctx db inp) db = none := by
  induction cs with
  | nil => intro c hc; exact absurd hc (List.not_mem_nil _)
  | cons c rest ih =>
    rw [firstErrCols] at h
    rcases hcc : checkCol c (colValue c ctx db inp) db with _ | e
    · rw [hcc] at h
      intro c' hc'
      rcases List.mem_cons.mp hc' with rfl | hm
      · exact hcc
      · exact ih h c' hm
    · rw [hcc] at h
      exact absurd h (by simp)

/-- A not-null violation always names a non-nullable column. -/
theorem checkCol_notNull_name {c : ColumnSpec} {v : Option Value} {db : List Row} {n : String}
    (h : checkCol c v db = some (.notNull n)) :
    c.name = n ∧ c.nullable = false := by
  unfold checkCol at h
  split_ifs at h with h1 h2 h3
  all_goals simp at h
  refine ⟨h, ?_⟩
  cases hnul : c.nullable with
  | false => rfl
  | true => rw [hnul] at h1; simp at h1

/-- Inserting never raises a not-null violation on a column every
declaration of which is nullable. -/
theorem insert_no_notNull_on_nullable (t : TableSpec) (ctx : Ctx) (db : List Row)
    (inp : List (String × Value)) (n : String)
    (h : ∀ c ∈ t.columns, c.name = n → c.nullable = true) :
    notNullErrOn (insert t ctx db inp) n = false := by
  rw [insert]
  rcases hfe : firstErrCols t.columns ctx db inp with _ | e
  · rfl
  · rcases e with m | m | m
    · obtain ⟨c, hm, hcc⟩ := firstErrCols_some_mem hfe
      obtain ⟨hname, hnul⟩ := checkCol_notNull_name hcc
      show (m == n) = false
      rw [beq_eq_false_iff_ne]
      rintro rfl
      rw [h c hm hname] at hnul
      exact Bool.noConfusion hnul
    · rfl
    · rfl

/-- A column that passes its checks with a non-nullable unique declaration
holds a value no stored record already has. -/
theorem checkCol_none_not_stored {c : ColumnSpec} {v : Option Value} {db : List Row}
    (hnn : c.nullable = false) (hu : c.unique = true)
    (h : checkCol c v db = none) :
    ∀ r ∈ db, rowVal r c.name ≠ v := by
  unfold checkCol at h
  split_ifs at h with h1 h2 h3
  all_goals try simp at h
  · intro r hr hv
    apply h3
    have hvsome : v.isSome = true := by
      rcases v with _ | x
      · exact absurd (show ((none : Option Value).isNone && !c.nullable) = true by
          rw [hnn]; rfl) h1
      · rfl
    have hany : db.any (fun r' => decide (rowVal r' c.name = v)) = true :=
      List.any_eq_true.mpr ⟨r, hr, by simp [hv]⟩
    rw [hu, hany, hvsome]
    simp

/-- Every reachable User store has pairwise distinct user names and
emails: the unique constraints on `user_name` and `email` are invariant. -/
theorem reachableUser_distinct : ∀ {db : List Row}, ReachableUser db → usersDistinct db := by
  intro db h
  induction h with
  | empty => exact List.Pairwise.nil
  | step db0 db1 ctx inp hr hins ih =>
    rw [insert] at hins
    rcases hfe : firstErrCols userTable.columns ctx db0 inp with _ | e
    · rw [hfe] at hins
      have hdb : db0 ++ [mkRow userTable ctx db0 inp] = db1 := Except.ok.inj hins
      subst hdb
      have hchecks := firstErrCols_none_mem hfe
      have hun := checkCol_none_not_stored rfl rfl
        (hchecks userNameCol (by rw [userTable_columns]; exact .tail _ (.head _)))
      have hem := checkCol_none_not_stored rfl rfl
        (hchecks emailCol
          (by rw [userTable_columns]; exact .tail _ (.tail _ (.tail _ (.tail _ (.head _))))))
      unfold usersDistinct
      rw [List.pairwise_append]
      refine ⟨ih, List.pairwise_singleton _ _, ?_⟩
      intro a ha b hb
      rw [List.mem_singleton] at hb
      subst hb
      exact ⟨hun a ha, hem a ha⟩
    · rw [hfe] at hins
      exact absurd hins (by simp)

end AIEdu

namespace AIEdu

/-- C1: `Enrollment.course_id` is declared as a foreign key referencing
`user.id` — the `user` table's `id` column — and not `course.id`. -/
theorem enrollment_course_id_fk_targets_user_id :
    fkTarget enrollmentTable "course_id" = some (userTable.name ++ ".id")
      ∧ fkTarget enrollmentTable "course_id" ≠ some (courseTable.name ++ ".id")
      ∧ (userTable.columns.map (fun c => c.name)).head? = some "id" := by
  refine ⟨rfl, ?_, rfl⟩
  intro h
  simp [fkTarget, enrollmentTable, courseTable, userTable, idCol, column] at h

/-- C2: the schema registers the reverse-navigation name `courses` three
times: `Course.teacher` and `Enrollment.student` both put a back-reference
named `courses` on `User`, and `Enrollment.course` puts one named `courses`
on `Course`; all three back-reference names coincide. -/
theorem backref_courses_collision :
    teacherRel ∈ relationships
      ∧ enrollmentStudentRel ∈ relationships
      ∧ enrollmentCourseRel ∈ relationships
      ∧ teacherRel.target = "User" ∧ teacherRel.backref = "courses"
      ∧ enrollmentStudentRel.target = "User" ∧ enrollmentStudentRel.backref = "courses"
      ∧ enrollmentCourseRel.target = "Course" ∧ enrollmentCourseRel.backref = "courses"
      ∧ teacherRel.backref = enrollmentStudentRel.backref
      ∧ enrollmentStudentRel.backref = enrollmentCourseRel.backref := by
  refine ⟨?_, ?_, ?_, rfl, rfl, rfl, rfl, rfl, rfl, rfl, rfl⟩ <;>
    simp [relationships]

/-- C3: for every 128-bit UUID value, the generated User id is exactly 12
characters long and is the last 12 characters of the value's canonical
text representation (so it is a deterministic function of that value). -/
theorem generated_id_is_last12_of_uuid (u : Nat) (h : u < 2 ^ 128) :
    (generate_uuid4_last12 u).length = 12
      ∧ (generate_uuid4_last12 u).data = (uuidStr u).drop ((uuidStr u).length - 12) := by
  constructor
  · rw [show (generate_uuid4_last12 u).length
        = ((uuidStr u).drop ((uuidStr u).length - 12)).length from rfl]
    rw [List.length_drop, uuidStr_length]
  · unfold generate_uuid4_last12
    rw [show ∀ l : List Char, (String.mk l).data = l from fun _ => rfl]

/-- Witness for C3 at the concrete UUID value 0. -/
theorem generated_id_is_last12_of_uuid_witness :
    (generate_uuid4_last12 0).length = 12
      ∧ (generate_uuid4_last12 0).data = (uuidStr 0).drop ((uuidStr 0).length - 12) :=
  generated_id_is_last12_of_uuid 0 (by norm_num)

/-- C4 fails on the code: no 128-bit UUID value yields an identifier
containing a hyphen, because the last 12 characters of the canonical
8-4-4-4-12 text are exactly the final 12-hex-digit group. -/
theorem no_uuid_makes_hyphen_in_id :
    ¬ ∃ u : Nat, u < 2 ^ 128 ∧ '-' ∈ (generate_uuid4_last12 u).data := by
  rintro ⟨u, _, hc⟩
  exact absurd (generate_uuid4_last12_mem_hexChars hc) (by decide)

/-- C4 amended: the 12-character slice never includes a hyphen; every
character of a generated identifier is one of the 16 lower-case
hexadecimal digits. -/
theorem generated_id_alphabet_is_hex (u : Nat) (c : Char)
    (h : c ∈ (generate_uuid4_last12 u).data) : c ∈ hexChars :=
  generate_uuid4_last12_mem_hexChars h

/-- Witness for the amended C4 at UUID value 0 and character `0`. -/
theorem generated_id_alphabet_is_hex_witness :
    '0' ∈ (generate_uuid4_last12 0).data ∧ '0' ∈ hexChars :=
  ⟨by decide, generated_id_alphabet_is_hex 0 '0' (by decide)⟩

/-- C8: creating a User with `user_name`, `email`, `first_name` and
`password_hash` supplied and all other fields unset succeeds, and the
stored record's id is the generator's value, its `created_at` is the
creation time, and its `updated_at` is unset. -/
theorem user_create_populates_defaults (ctx : Ctx) (un fn em ph : String) :
    ∃ row : Row,
      insert userTable ctx [] (mkUserInp un fn em ph) = .ok [row]
        ∧ rowVal row "id" = some (Value.str (generate_uuid4_last12 ctx.uuid))
        ∧ rowVal row "created_at" = some (Value.time ctx.now)
        ∧ rowVal row "updated_at" = none :=
  ⟨mkRow userTable ctx [] (mkUserInp un fn em ph), rfl, rfl, rfl, rfl⟩

/-- C5: the `score` column of `ai_evaluation` carries no range or
enumeration constraint, so creating an AIEvaluation succeeds whatever
integer `score` holds (whenever the fresh auto-increment id is unused). -/
theorem ai_evaluation_any_score_accepted (ctx : Ctx) (db : List Row)
    (score : Int) (aid fb : Value)
    (h : ∀ r ∈ db, rowVal r "id" ≠ some (Value.int (Int.ofNat (db.length + 1)))) :
    ∃ db', insert aiEvaluationTable ctx db
      [("answer_id", aid), ("score", Value.int score), ("feedback", fb)] = .ok db' := by
  refine ⟨_, insert_ok_of_firstErr_none ?_⟩
  have hid : checkCol idCol
      (colValue idCol ctx db [("answer_id", aid), ("score", Value.int score), ("feedback", fb)])
      db = none := checkCol_idCol_fresh db _ h
  rw [aiEvaluationTable_columns, firstErrCols_cons_none hid]
  rfl

/-- Witness for C5: spec section 8's example, `score = 5` into an empty
store, is accepted. -/
theorem ai_evaluation_any_score_accepted_witness :
    (∀ r ∈ ([] : List Row), rowVal r "id" ≠ some (Value.int (Int.ofNat (0 + 1))))
      ∧ ∃ db', insert aiEvaluationTable ⟨0, 0⟩ []
          [("answer_id", Value.int 1), ("score", Value.int 5), ("feedback", Value.str "ok")]
          = .ok db' :=
  ⟨by simp, ai_evaluation_any_score_accepted ⟨0, 0⟩ [] 5 (Value.int 1) (Value.str "ok") (by simp)⟩

/-- C6: creating an Enrollment with a status outside the enumerated set
fails with an enumerated-value violation on `status`, while each of
`enrolled`, `cancelled` and `pending` is accepted. -/
theorem enrollment_status_enum_enforced :
    (∀ (ctx : Ctx) (db : List Row) (sid cid : Value),
        (∀ r ∈ db, rowVal r "id" ≠ some (Value.int (Int.ofNat (db.length + 1)))) →
        insert enrollmentTable ctx db
          [("student_id", sid), ("course_id", cid), ("status", Value.str "invalid_value")]
          = .error (.enumViolation "status"))
      ∧ (∀ s : String, (s = "enrolled" ∨ s = "cancelled" ∨ s = "pending") →
          ∀ (ctx : Ctx) (db : List Row) (sid cid : Value),
          (∀ r ∈ db, rowVal r "id" ≠ some (Value.int (Int.ofNat (db.length + 1)))) →
          ∃ db', insert enrollmentTable ctx db
            [("student_id", sid), ("course_id", cid), ("status", Value.str s)] = .ok db') := by
  constructor
  · intro ctx db sid cid h
    apply insert_err_of_firstErr
    have hid : checkCol idCol
        (colValue idCol ctx db
          [("student_id", sid), ("course_id", cid), ("status", Value.str "invalid_value")])
        db = none := checkCol_idCol_fresh db _ h
    rw [enrollmentTable_columns, firstErrCols_cons_none hid]
    rfl
  · intro s hs ctx db sid cid h
    refine ⟨_, insert_ok_of_firstErr_none ?_⟩
    have hid : checkCol idCol
        (colValue idCol ctx db [("student_id", sid), ("course_id", cid), ("status", Value.str s)])
        db = none := checkCol_idCol_fresh db _ h
    rcases hs with rfl | rfl | rfl <;>
      · rw [enrollmentTable_columns, firstErrCols_cons_none hid]
        rfl

/-- C9: creating an Enrollment with `status` and `enrollment_date` unset
succeeds (whenever the fresh auto-increment id is unused), storing status
`pending` and the creation time as the enrollment date. -/
theorem enrollment_defaults (ctx : Ctx) (db : List Row) (sid cid : Value)
    (h : ∀ r ∈ db, rowVal r "id" ≠ some (Value.int (Int.ofNat (db.length + 1)))) :
    ∃ row : Row,
      insert enrollmentTable ctx db [("student_id", sid), ("course_id", cid)]
          = .ok (db ++ [row])
        ∧ rowVal row "status" = some (Value.str "pending")
        ∧ rowVal row "enrollment_date" = some (Value.time ctx.now) := by
  refine ⟨mkRow enrollmentTable ctx db [("student_id", sid), ("course_id", cid)],
    insert_ok_of_firstErr_none ?_, rfl, rfl⟩
  have hid : checkCol idCol
      (colValue idCol ctx db [("student_id", sid), ("course_id", cid)]) db = none :=
    checkCol_idCol_fresh db _ h
  rw [enrollmentTable_columns, firstErrCols_cons_none hid]
  rfl

/-- Witness for C9 at an empty store with concrete foreign-key values. -/
theorem enrollment_defaults_witness :
    (∀ r ∈ ([] : List Row), rowVal r "id" ≠ some (Value.int (Int.ofNat (0 + 1))))
      ∧ ∃ row : Row,
        insert enrollmentTable ⟨7, 0⟩ []
            [("student_id", Value.str "aaaaaaaaaaaa"), ("course_id", Value.int 1)]
            = .ok ([] ++ [row])
          ∧ rowVal row "status" = some (Value.str "pending")
          ∧ rowVal row "enrollment_date" = some (Value.time 7) :=
  ⟨by simp,
    enrollment_defaults ⟨7, 0⟩ [] (Value.str "aaaaaaaaaaaa") (Value.int 1) (by simp)⟩

/-- C10: every foreign-key column of the schema is nullable — inserting
never raises a not-null violation on `teacher_id`, `student_id`,
`course_id`, `exam_id`, `question_id` or `answer_id`, and a record of
each child entity can be created with its foreign-key fields unset. -/
theorem fk_columns_nullable :
    (∀ (ctx : Ctx) (db : List Row) (inp : List (String × Value)),
        notNullErrOn (insert courseTable ctx db inp) "teacher_id" = false
          ∧ notNullErrOn (insert enrollmentTable ctx db inp) "student_id" = false
          ∧ notNullErrOn (insert enrollmentTable ctx db inp) "course_id" = false
          ∧ notNullErrOn (insert examTable ctx db inp) "course_id" = false
          ∧ notNullErrOn (insert questionTable ctx db inp) "exam_id" = false
          ∧ notNullErrOn (insert answerTable ctx db inp) "question_id" = false
          ∧ notNullErrOn (insert answerTable ctx db inp) "student_id" = false
          ∧ notNullErrOn (insert aiEvaluationTable ctx db inp) "answer_id" = false)
      ∧ (∀ (ctx : Ctx) (cn et qt ans : String),
          (∃ db', insert courseTable ctx [] [("course_name", Value.str cn)] = .ok db')
            ∧ (∃ db', insert enrollmentTable ctx [] [] = .ok db')
            ∧ (∃ db', insert examTable ctx [] [("exam_title", Value.str et)] = .ok db')
            ∧ (∃ db', insert questionTable ctx [] [("question_text", Value.str qt)] = .ok db')
            ∧ (∃ db', insert answerTable ctx [] [("answer_text", Value.str ans)] = .ok db')
            ∧ (∃ db', insert aiEvaluationTable ctx [] [] = .ok db')) := by
  constructor
  · intro ctx db inp
    refine ⟨?_, ?_, ?_, ?_, ?_, ?_, ?_, ?_⟩ <;>
      · apply insert_no_notNull_on_nullable
        intro c hc hn
        fin_cases hc <;>
          first
            | rfl
            | simp_all [idCol, userIdCol, userNameCol, emailCol, column]
  · intro ctx cn et qt ans
    exact ⟨⟨_, rfl⟩, ⟨_, rfl⟩, ⟨_, rfl⟩, ⟨_, rfl⟩, ⟨_, rfl⟩, ⟨_, rfl⟩⟩

/-- C7: creating a second User with an already-stored `user_name` (or
`email`) fails with a uniqueness violation on that column, creating a User
whose `user_name`, `email` and id are all fresh succeeds, and every store
reachable by successful inserts has globally distinct user names and
emails. -/
theorem user_name_email_globally_unique :
    (∀ (ctx : Ctx) (db : List Row) (un fn em ph : String),
        (∀ r ∈ db, rowVal r "id" ≠ some (Value.str (generate_uuid4_last12 ctx.uuid))) →
        (∃ r ∈ db, rowVal r "user_name" = some (Value.str un)) →
        insert userTable ctx db (mkUserInp un fn em ph)
          = .error (.uniqueViolation "user_name"))
      ∧ (∀ (ctx : Ctx) (db : List Row) (un fn em ph : String),
        (∀ r ∈ db, rowVal r "id" ≠ some (Value.str (generate_uuid4_last12 ctx.uuid))) →
        (∀ r ∈ db, rowVal r "user_name" ≠ some (Value.str un)) →
        (∃ r ∈ db, rowVal r "email" = some (Value.str em)) →
        insert userTable ctx db (mkUserInp un fn em ph)
          = .error (.uniqueViolation "email"))
      ∧ (∀ (ctx : Ctx) (db : List Row) (un fn em ph : String),
        (∀ r ∈ db, rowVal r "id" ≠ some (Value.str (generate_uuid4_last12 ctx.uuid))) →
        (∀ r ∈ db, rowVal r "user_name" ≠ some (Value.str un)) →
        (∀ r ∈ db, rowVal r "email" ≠ some (Value.str em)) →
        ∃ db', insert userTable ctx db (mkUserInp un fn em ph) = .ok db')
      ∧ (∀ db : List Row, ReachableUser db → usersDistinct db) := by
  refine ⟨?_, ?_, ?_, fun db h => reachableUser_distinct h⟩
  · intro ctx db un fn em ph hid hdup
    apply insert_err_of_firstErr
    have h1 : checkCol userIdCol (colValue userIdCol ctx db (mkUserInp un fn em ph)) db
        = none :=
      checkCol_some_fresh userIdCol (Value.str (generate_uuid4_last12 ctx.uuid)) db rfl hid
    have h2 : checkCol userNameCol (colValue userNameCol ctx db (mkUserInp un fn em ph)) db
        = some (.uniqueViolation "user_name") :=
      checkCol_unique_dup userNameCol (Value.str un) db rfl rfl hdup
    rw [userTable_columns, firstErrCols_cons_none h1, firstErrCols_cons_some h2]
  · intro ctx db un fn em ph hid hfr hdup
    apply insert_err_of_firstErr
    have h1 : checkCol userIdCol (colValue userIdCol ctx db (mkUserInp un fn em ph)) db
        = none :=
      checkCol_some_fresh userIdCol (Value.str (generate_uuid4_last12 ctx.uuid)) db rfl hid
    have h2 : checkCol userNameCol (colValue userNameCol ctx db (mkUserInp un fn em ph)) db
        = none :=
      checkCol_some_fresh userNameCol (Value.str un) db rfl hfr
    have h3 : checkCol (column "first_name" (.str 80) false false false none none)
        (colValue (column "first_name" (.str 80) false false false none none) ctx db
          (mkUserInp un fn em ph)) db = none := rfl
    have h4 : checkCol (column "last_name" (.str 80) false false true none none)
        (colValue (column "last_name" (.str 80) false false true none none) ctx db
          (mkUserInp un fn em ph)) db = none := rfl
    have h5 : checkCol emailCol (colValue emailCol ctx db (mkUserInp un fn em ph)) db
        = some (.uniqueViolation "email") :=
      checkCol_unique_dup emailCol (Value.str em) db rfl rfl hdup
    rw [userTable_columns, firstErrCols_cons_none h1, firstErrCols_cons_none h2,
      firstErrCols_cons_none h3, firstErrCols_cons_none h4, firstErrCols_cons_some h5]
  · intro ctx db un fn em ph hid hfr hfre
    refine ⟨_, insert_ok_of_firstErr_none ?_⟩
    have h1 : checkCol userIdCol (colValue userIdCol ctx db (mkUserInp un fn em ph)) db
        = none :=
      checkCol_some_fresh userIdCol (Value.str (generate_uuid4_last12 ctx.uuid)) db rfl hid
    have h2 : checkCol userNameCol (colValue userNameCol ctx db (mkUserInp un fn em ph)) db
        = none :=
      checkCol_some_fresh userNameCol (Value.str un) db rfl hfr
    have h3 : checkCol (column "first_name" (.str 80) false false false none none)
        (colValue (column "first_name" (.str 80) false false false none none) ctx db
          (mkUserInp un fn em ph)) db = none := rfl
    have h4 : checkCol (column "last_name" (.str 80) false false true none none)
        (colValue (column "last_name" (.str 80) false false true none none) ctx db
          (mkUserInp un fn em ph)) db = none := rfl
    have h5 : checkCol emailCol (colValue emailCol ctx db (mkUserInp un fn em ph)) db
        = none :=
      checkCol_some_fresh emailCol (Value.str em) db rfl hfre
    rw [userTable_columns, firstErrCols_cons_none h1, firstErrCols_cons_none h2,
      firstErrCols_cons_none h3, firstErrCols_cons_none h4, firstErrCols_cons_none h5]
    rfl

end AIEdu
